import Mathlib

/-
Verification of the patient-portal backend (apps/backend-api).

The development shallowly embeds two source files:
  * app/main.py — the FastAPI exception handlers that build the uniform
    error envelope returned to HTTP clients;
  * app/models/patient.py — the SQLAlchemy entity schema (columns,
    defaults, uniqueness constraints, timestamp columns).

Machine details abstracted: UUIDs and timestamps are modelled as Nat
(the float value of time.time() is opaque to every property proved here,
only its placement in the envelope matters); SQL DECIMAL values are
modelled as scaled integers; JSON values are a standard inductive.

The store operations (create / partial update / mark-read / status
transition) live in repository code that is not part of the two source
files above; where a claim depends on them they are modelled from the
spec, and each such definition carries a doc comment saying so.
-/

namespace PatientPortal

/-- JSON values, used for response bodies and for the schema's opaque
JSON blob columns (address, insurance_info, attachments, ...). -/
inductive Json where
  | null : Json
  | bool (b : Bool) : Json
  | num (n : Int) : Json
  | str (s : String) : Json
  | arr (elems : List Json) : Json
  | obj (fields : List (String × Json)) : Json

/-- The fields of app.core.exceptions.PatientPortalException that the
handler in main.py reads: status_code, error_code, message, details. -/
structure PatientPortalException where
  status_code : Nat
  error_code : String
  message : String
  details : Json

/-- A FastAPI RequestValidationError as the handler uses it: exc.errors()
is a list of error objects, opaque to the handler. -/
structure RequestValidationError where
  errors : List Json

/-- An arbitrary unexpected Python exception, as seen by the generic
handler in main.py: it only ever reads str(exc) and type(exc).__name__,
and only for logging. -/
structure PyException where
  message : String
  type_name : String

/-- Embeds patient_portal_exception_handler from app/main.py: returns
(status code, JSON body) built from the exception's own fields plus the
request metadata (timestamp, X-Request-ID header). -/
def patient_portal_exception_handler (now : Nat) (request_id : String)
    (exc : PatientPortalException) : Nat × Json :=
  (exc.status_code,
   .obj [("success", .bool false),
         ("error", .obj [("code", .str exc.error_code),
                         ("message", .str exc.message),
                         ("details", exc.details)]),
         ("meta", .obj [("timestamp", .num now),
                        ("request_id", .str request_id)])])

/-- Embeds validation_exception_handler from app/main.py: fixed status
422, code VALIDATION_ERROR, details = exc.errors(). -/
def validation_exception_handler (now : Nat) (request_id : String)
    (exc : RequestValidationError) : Nat × Json :=
  (422,
   .obj [("success", .bool false),
         ("error", .obj [("code", .str "VALIDATION_ERROR"),
                         ("message", .str "Request validation failed"),
                         ("details", .arr exc.errors)]),
         ("meta", .obj [("timestamp", .num now),
                        ("request_id", .str request_id)])])

/-- Embeds general_exception_handler from app/main.py: fixed status 500,
code INTERNAL_SERVER_ERROR, fixed message, details null; the exception is
only logged, never placed in the body. -/
def general_exception_handler (now : Nat) (request_id : String)
    (_exc : PyException) : Nat × Json :=
  (500,
   .obj [("success", .bool false),
         ("error", .obj [("code", .str "INTERNAL_SERVER_ERROR"),
                         ("message", .str "An unexpected error occurred"),
                         ("details", .null)]),
         ("meta", .obj [("timestamp", .num now),
                        ("request_id", .str request_id)])])

/-- Checks that a JSON body has exactly the uniform error envelope shape:
an object with exactly the keys success, error, meta in that order, where
success is the boolean false, error is an object with exactly the keys
code, message, details, and meta is an object with exactly the keys
timestamp and request_id. -/
def isErrorEnvelope : Json → Bool
  | .obj [(k1, .bool b), (k2, .obj efields), (k3, .obj mfields)] =>
      k1 == "success" && k2 == "error" && k3 == "meta" && b == false &&
      (match efields with
       | [(e1, _), (e2, _), (e3, _)] =>
           e1 == "code" && e2 == "message" && e3 == "details"
       | _ => false) &&
      (match mfields with
       | [(m1, _), (m2, _)] => m1 == "timestamp" && m2 == "request_id"
       | _ => false)
  | _ => false

end PatientPortal

namespace PatientPortal

/-- The store error taxonomy of the spec: ValidationError, ConflictError,
NotFoundError (app.core.exceptions; only their names and roles appear in
the two source files). -/
inductive StoreError where
  | validationError : StoreError
  | conflictError : StoreError
  | notFoundError : StoreError
deriving DecidableEq

/-- A row of the patients table (models/patient.py, class Patient):
UUIDs and dates as Nat, nullable columns as Option, JSON blob columns as
Option Json. -/
structure Patient where
  id : Nat
  first_name : String
  last_name : String
  date_of_birth : Nat
  email : String
  phone : Option String
  address : Option Json
  emergency_contact : Option Json
  medical_record_number : String
  insurance_info : Option Json
  preferred_language : String
  is_active : Bool
  created_at : Nat
  updated_at : Option Nat

/-- Caller-supplied fields of a patient create request: the non-nullable
columns are required, nullable ones optional, and the columns with a
schema default (preferred_language, is_active) optional so the default
can apply. -/
structure PatientInput where
  first_name : String
  last_name : String
  date_of_birth : Nat
  email : String
  phone : Option String
  address : Option Json
  emergency_contact : Option Json
  medical_record_number : String
  insurance_info : Option Json
  preferred_language : Option String
  is_active : Option Bool

/-- Builds the patient row an insert persists: identity assigned by the
store, created_at stamped with the insert time (server_default func.now),
updated_at absent (the column has only an onupdate default), and the
column defaults preferred_language "en" and is_active true applied when
the input leaves them unset. -/
def createPatientRow (i : PatientInput) (id now : Nat) : Patient :=
  { id := id
    first_name := i.first_name
    last_name := i.last_name
    date_of_birth := i.date_of_birth
    email := i.email
    phone := i.phone
    address := i.address
    emergency_contact := i.emergency_contact
    medical_record_number := i.medical_record_number
    insurance_info := i.insurance_info
    preferred_language := i.preferred_language.getD "en"
    is_active := i.is_active.getD true
    created_at := now
    updated_at := none }

/-- Partial update of a patient profile: each field optional, omitted
fields untouched. -/
structure PatientUpdate where
  first_name : Option String
  last_name : Option String
  phone : Option String
  address : Option Json
  emergency_contact : Option Json
  insurance_info : Option Json
  preferred_language : Option String
  is_active : Option Bool

/-- Modelled from the spec: the store update operation (partial field
merge, stamp modification time); the update operation itself is not in
the two source files, but the timestamp behaviour follows the column
declarations (created_at immutable, updated_at onupdate func.now). -/
def updatePatientRow (p : Patient) (u : PatientUpdate) (now : Nat) : Patient :=
  { p with
    first_name := u.first_name.getD p.first_name
    last_name := u.last_name.getD p.last_name
    phone := u.phone <|> p.phone
    address := u.address <|> p.address
    emergency_contact := u.emergency_contact <|> p.emergency_contact
    insurance_info := u.insurance_info <|> p.insurance_info
    preferred_language := u.preferred_language.getD p.preferred_language
    is_active := u.is_active.getD p.is_active
    updated_at := some now }

/-- The patients table: one row per patient. -/
structure PatientStore where
  patients : List Patient

/-- Tests whether an existing row collides with the input on one of the
unique columns of the patients table (email, medical_record_number). -/
def patientConflict (p : Patient) (i : PatientInput) : Bool :=
  p.email == i.email || p.medical_record_number == i.medical_record_number

/-- Modelled from the spec: the store create operation for Patient.
Create enforces the unique indexes on email and medical_record_number
declared in models/patient.py and fails with ConflictError on a
violation, persisting nothing; on success it appends the new row.
Returns the resulting store together with the operation's outcome. -/
def createPatientStep (s : PatientStore) (i : PatientInput) (id now : Nat) :
    PatientStore × Except StoreError Patient :=
  if s.patients.any (fun p => patientConflict p i) then
    (s, .error .conflictError)
  else
    let r := createPatientRow i id now
    ({ patients := s.patients ++ [r] }, .ok r)

/-- An existing patient row used to exercise the uniqueness check. -/
def samplePatient : Patient :=
  { id := 1
    first_name := "Ada"
    last_name := "Lovelace"
    date_of_birth := 18151210
    email := "a@x.com"
    phone := none
    address := none
    emergency_contact := none
    medical_record_number := "MRN-001"
    insurance_info := none
    preferred_language := "en"
    is_active := true
    created_at := 0
    updated_at := none }

/-- A create request reusing samplePatient's email under a fresh medical
record number. -/
def dupEmailInput : PatientInput :=
  { first_name := "Grace"
    last_name := "Hopper"
    date_of_birth := 19061209
    email := "a@x.com"
    phone := none
    address := none
    emergency_contact := none
    medical_record_number := "MRN-002"
    insurance_info := none
    preferred_language := none
    is_active := none }

/-- A row of the providers table (models/patient.py, class Provider). -/
structure Provider where
  id : Nat
  first_name : String
  last_name : String
  title : Option String
  specialty : Option String
  department : Option String
  email : String
  phone : Option String
  office_location : Option String
  bio : Option String
  is_active : Bool
  created_at : Nat
  updated_at : Option Nat

/-- Caller-supplied fields of a provider create request. -/
structure ProviderInput where
  first_name : String
  last_name : String
  title : Option String
  specialty : Option String
  department : Option String
  email : String
  phone : Option String
  office_location : Option String
  bio : Option String
  is_active : Option Bool

/-- Builds the provider row an insert persists: created_at stamped at
insert time, updated_at absent, is_active defaulting to true. -/
def createProviderRow (i : ProviderInput) (id now : Nat) : Provider :=
  { id := id
    first_name := i.first_name
    last_name := i.last_name
    title := i.title
    specialty := i.specialty
    department := i.department
    email := i.email
    phone := i.phone
    office_location := i.office_location
    bio := i.bio
    is_active := i.is_active.getD true
    created_at := now
    updated_at := none }

/-- Partial update of a provider profile. -/
structure ProviderUpdate where
  title : Option String
  specialty : Option String
  department : Option String
  phone : Option String
  office_location : Option String
  bio : Option String
  is_active : Option Bool

/-- Modelled from the spec: partial field merge for Provider, stamping
the modification time per the updated_at onupdate column default. -/
def updateProviderRow (p : Provider) (u : ProviderUpdate) (now : Nat) : Provider :=
  { p with
    title := u.title <|> p.title
    specialty := u.specialty <|> p.specialty
    department := u.department <|> p.department
    phone := u.phone <|> p.phone
    office_location := u.office_location <|> p.office_location
    bio := u.bio <|> p.bio
    is_active := u.is_active.getD p.is_active
    updated_at := some now }

/-- The appointment status enum of models/patient.py: scheduled,
confirmed, completed, cancelled, no-show. -/
inductive AppointmentStatus where
  | scheduled : AppointmentStatus
  | confirmed : AppointmentStatus
  | completed : AppointmentStatus
  | cancelled : AppointmentStatus
  | noShow : AppointmentStatus
deriving DecidableEq

/-- A row of the appointments table (models/patient.py, class
Appointment); duration_minutes is an SQL Integer, so modelled as Int. -/
structure Appointment where
  id : Nat
  patient_id : Nat
  provider_id : Nat
  appointment_date : Nat
  duration_minutes : Int
  appointment_type : Option String
  status : AppointmentStatus
  location : Option String
  reason : Option String
  notes : Option String
  instructions : Option String
  created_at : Nat
  updated_at : Option Nat

/-- Caller-supplied fields of an appointment create request; status and
duration_minutes optional so the schema defaults (scheduled, 30) apply. -/
structure AppointmentInput where
  patient_id : Nat
  provider_id : Nat
  appointment_date : Nat
  duration_minutes : Option Int
  appointment_type : Option String
  status : Option AppointmentStatus
  location : Option String
  reason : Option String
  notes : Option String
  instructions : Option String

/-- Modelled from the spec: the store create operation for Appointment.
The schema defaults duration_minutes to 30 and status to scheduled
(models/patient.py lines 86 and 88); the spec's duration > 0 invariant is
checked, failing with ValidationError, since the create operation itself
is not among the source files. -/
def createAppointment (i : AppointmentInput) (id now : Nat) :
    Except StoreError Appointment :=
  let dur := i.duration_minutes.getD 30
  if dur ≤ 0 then .error .validationError
  else .ok
    { id := id
      patient_id := i.patient_id
      provider_id := i.provider_id
      appointment_date := i.appointment_date
      duration_minutes := dur
      appointment_type := i.appointment_type
      status := i.status.getD .scheduled
      location := i.location
      reason := i.reason
      notes := i.notes
      instructions := i.instructions
      created_at := now
      updated_at := none }

/-- Partial update of an appointment; the status field is excluded —
status changes go through the transition operation. -/
structure AppointmentUpdate where
  appointment_date : Option Nat
  duration_minutes : Option Int
  appointment_type : Option String
  location : Option String
  reason : Option String
  notes : Option String
  instructions : Option String

/-- Modelled from the spec: partial field merge for Appointment with the
duration > 0 invariant revalidated on the merged row, stamping the
modification time on success. -/
def updateAppointment (a : Appointment) (u : AppointmentUpdate) (now : Nat) :
    Except StoreError Appointment :=
  let dur := u.duration_minutes.getD a.duration_minutes
  if dur ≤ 0 then .error .validationError
  else .ok
    { a with
      appointment_date := u.appointment_date.getD a.appointment_date
      duration_minutes := dur
      appointment_type := u.appointment_type <|> a.appointment_type
      location := u.location <|> a.location
      reason := u.reason <|> a.reason
      notes := u.notes <|> a.notes
      instructions := u.instructions <|> a.instructions
      updated_at := some now }

/-- Modelled from the spec: the allowed-transition table for appointment
statuses — transitions are monotonic forward along scheduled, confirmed,
completed, with cancellation (and no-show) reachable from any
pre-completion state. -/
def allowedTransition : AppointmentStatus → AppointmentStatus → Bool
  | .scheduled, .confirmed => true
  | .scheduled, .completed => true
  | .scheduled, .cancelled => true
  | .scheduled, .noShow => true
  | .confirmed, .completed => true
  | .confirmed, .cancelled => true
  | .confirmed, .noShow => true
  | _, _ => false

/-- Modelled from the spec: the store status-transition operation for
Appointment. A step outside the allowed-transition table fails with
ValidationError and leaves the row untouched; an allowed step writes the
new status and stamps the modification time. -/
def transitionAppointment (a : Appointment) (target : AppointmentStatus)
    (now : Nat) : Appointment × Except StoreError Unit :=
  if allowedTransition a.status target then
    ({ a with status := target, updated_at := some now }, .ok ())
  else
    (a, .error .validationError)

/-- The lab result status enum of models/patient.py: normal, abnormal,
critical, pending. -/
inductive LabStatus where
  | normal : LabStatus
  | abnormal : LabStatus
  | critical : LabStatus
  | pending : LabStatus
deriving DecidableEq

/-- A row of the lab_results table (models/patient.py, class LabResult);
the DECIMAL(10,3) result_value is modelled as a scaled integer
(thousandths), the nullable status column as Option LabStatus. -/
structure LabResult where
  id : Nat
  patient_id : Nat
  test_name : String
  test_code : Option String
  category : Option String
  result_value : Option Int
  result_text : Option String
  result_unit : Option String
  reference_range : Option String
  status : Option LabStatus
  flags : Option String
  collected_date : Option Nat
  resulted_date : Option Nat
  provider_notes : Option String
  patient_explanation : Option String
  is_critical : Bool
  created_at : Nat
  updated_at : Option Nat

/-- The critical-flag invariant of the spec: is_critical implies the
status is abnormal or critical. -/
def labCriticalOk (r : LabResult) : Bool :=
  !r.is_critical || (r.status == some .abnormal || r.status == some .critical)

/-- The date invariant of the spec: resulted_date at or after
collected_date whenever both are present. -/
def labDatesOk (r : LabResult) : Bool :=
  match r.collected_date, r.resulted_date with
  | some c, some d => decide (c ≤ d)
  | _, _ => true

/-- Caller-supplied fields of a lab result create request; is_critical
optional so the schema default false applies. -/
structure LabResultInput where
  patient_id : Nat
  test_name : String
  test_code : Option String
  category : Option String
  result_value : Option Int
  result_text : Option String
  result_unit : Option String
  reference_range : Option String
  status : Option LabStatus
  flags : Option String
  collected_date : Option Nat
  resulted_date : Option Nat
  provider_notes : Option String
  patient_explanation : Option String
  is_critical : Option Bool

/-- Builds the lab result row an insert would persist, before
validation: is_critical defaulting to false per the column default. -/
def labRowOfInput (i : LabResultInput) (id now : Nat) : LabResult :=
  { id := id
    patient_id := i.patient_id
    test_name := i.test_name
    test_code := i.test_code
    category := i.category
    result_value := i.result_value
    result_text := i.result_text
    result_unit := i.result_unit
    reference_range := i.reference_range
    status := i.status
    flags := i.flags
    collected_date := i.collected_date
    resulted_date := i.resulted_date
    provider_notes := i.provider_notes
    patient_explanation := i.patient_explanation
    is_critical := i.is_critical.getD false
    created_at := now
    updated_at := none }

/-- Modelled from the spec: the store create operation for LabResult,
rejecting with ValidationError any row violating the entity invariants
(is_critical implies abnormal or critical status; resulted_date at or
after collected_date); the create operation is not among the source
files. -/
def createLabResult (i : LabResultInput) (id now : Nat) :
    Except StoreError LabResult :=
  let r := labRowOfInput i id now
  if labCriticalOk r && labDatesOk r then .ok r
  else .error .validationError

/-- Partial update of a lab result. -/
structure LabResultUpdate where
  result_value : Option Int
  result_text : Option String
  result_unit : Option String
  reference_range : Option String
  status : Option LabStatus
  flags : Option String
  collected_date : Option Nat
  resulted_date : Option Nat
  provider_notes : Option String
  patient_explanation : Option String
  is_critical : Option Bool

/-- The merged row a lab result update would write, stamping the
modification time. -/
def labRowOfUpdate (r : LabResult) (u : LabResultUpdate) (now : Nat) : LabResult :=
  { r with
    result_value := u.result_value <|> r.result_value
    result_text := u.result_text <|> r.result_text
    result_unit := u.result_unit <|> r.result_unit
    reference_range := u.reference_range <|> r.reference_range
    status := u.status <|> r.status
    flags := u.flags <|> r.flags
    collected_date := u.collected_date <|> r.collected_date
    resulted_date := u.resulted_date <|> r.resulted_date
    provider_notes := u.provider_notes <|> r.provider_notes
    patient_explanation := u.patient_explanation <|> r.patient_explanation
    is_critical := u.is_critical.getD r.is_critical
    updated_at := some now }

/-- Modelled from the spec: the store update operation for LabResult,
revalidating the entity invariants on the merged row and failing with
ValidationError on a violation. -/
def updateLabResult (r : LabResult) (u : LabResultUpdate) (now : Nat) :
    Except StoreError LabResult :=
  let m := labRowOfUpdate r u now
  if labCriticalOk m && labDatesOk m then .ok m
  else .error .validationError

/-- The medication status enum of models/patient.py: active,
discontinued, completed. -/
inductive MedicationStatus where
  | active : MedicationStatus
  | discontinued : MedicationStatus
  | completed : MedicationStatus
deriving DecidableEq

/-- A row of the medications table (models/patient.py, class
Medication). -/
structure Medication where
  id : Nat
  patient_id : Nat
  prescriber_id : Nat
  medication_name : String
  generic_name : Option String
  dosage : Option String
  strength : Option String
  form : Option String
  frequency : Option String
  route : Option String
  instructions : Option String
  indication : Option String
  quantity : Option Int
  refills_remaining : Int
  prescribed_date : Nat
  start_date : Option Nat
  end_date : Option Nat
  status : MedicationStatus
  side_effects : Option Json
  interactions : Option Json
  created_at : Nat
  updated_at : Option Nat

/-- Caller-supplied fields of a medication create request;
refills_remaining and status optional so the schema defaults (0, active)
apply. -/
structure MedicationInput where
  patient_id : Nat
  prescriber_id : Nat
  medication_name : String
  generic_name : Option String
  dosage : Option String
  strength : Option String
  form : Option String
  frequency : Option String
  route : Option String
  instructions : Option String
  indication : Option String
  quantity : Option Int
  refills_remaining : Option Int
  prescribed_date : Nat
  start_date : Option Nat
  end_date : Option Nat
  status : Option MedicationStatus
  side_effects : Option Json
  interactions : Option Json

/-- Builds the medication row an insert persists: created_at stamped at
insert time, updated_at absent, refills_remaining defaulting to 0 and
status to active per the column defaults. -/
def createMedicationRow (i : MedicationInput) (id now : Nat) : Medication :=
  { id := id
    patient_id := i.patient_id
    prescriber_id := i.prescriber_id
    medication_name := i.medication_name
    generic_name := i.generic_name
    dosage := i.dosage
    strength := i.strength
    form := i.form
    frequency := i.frequency
    route := i.route
    instructions := i.instructions
    indication := i.indication
    quantity := i.quantity
    refills_remaining := i.refills_remaining.getD 0
    prescribed_date := i.prescribed_date
    start_date := i.start_date
    end_date := i.end_date
    status := i.status.getD .active
    side_effects := i.side_effects
    interactions := i.interactions
    created_at := now
    updated_at := none }

/-- Partial update of a medication. -/
structure MedicationUpdate where
  dosage : Option String
  strength : Option String
  form : Option String
  frequency : Option String
  route : Option String
  instructions : Option String
  indication : Option String
  quantity : Option Int
  refills_remaining : Option Int
  start_date : Option Nat
  end_date : Option Nat
  status : Option MedicationStatus
  side_effects : Option Json
  interactions : Option Json

/-- Modelled from the spec: partial field merge for Medication, stamping
the modification time per the updated_at onupdate column default. -/
def updateMedicationRow (m : Medication) (u : MedicationUpdate) (now : Nat) :
    Medication :=
  { m with
    dosage := u.dosage <|> m.dosage
    strength := u.strength <|> m.strength
    form := u.form <|> m.form
    frequency := u.frequency <|> m.frequency
    route := u.route <|> m.route
    instructions := u.instructions <|> m.instructions
    indication := u.indication <|> m.indication
    quantity := u.quantity <|> m.quantity
    refills_remaining := u.refills_remaining.getD m.refills_remaining
    start_date := u.start_date <|> m.start_date
    end_date := u.end_date <|> m.end_date
    status := u.status.getD m.status
    side_effects := u.side_effects <|> m.side_effects
    interactions := u.interactions <|> m.interactions
    updated_at := some now }

/-- The message sender enum of models/patient.py: patient or provider. -/
inductive SenderType where
  | patient : SenderType
  | provider : SenderType
deriving DecidableEq

/-- The message priority enum of models/patient.py: low, normal, high,
urgent. -/
inductive Priority where
  | low : Priority
  | normal : Priority
  | high : Priority
  | urgent : Priority
deriving DecidableEq

/-- A row of the messages table (models/patient.py, class Message). -/
structure Message where
  id : Nat
  patient_id : Nat
  provider_id : Nat
  thread_id : Option Nat
  subject : String
  message_body : String
  sender_type : SenderType
  message_type : String
  priority : Priority
  is_read : Bool
  read_at : Option Nat
  attachments : Option Json
  created_at : Nat
  updated_at : Option Nat

/-- Caller-supplied fields of a message create request; message_type and
priority optional so the schema defaults (general, normal) apply. The
read state is store-managed, not caller-supplied. -/
structure MessageInput where
  patient_id : Nat
  provider_id : Nat
  thread_id : Option Nat
  subject : String
  message_body : String
  sender_type : SenderType
  message_type : Option String
  priority : Option Priority
  attachments : Option Json

/-- Builds the message row an insert persists: is_read false and read_at
absent per the column defaults, created_at stamped, updated_at absent. -/
def createMessageRow (i : MessageInput) (id now : Nat) : Message :=
  { id := id
    patient_id := i.patient_id
    provider_id := i.provider_id
    thread_id := i.thread_id
    subject := i.subject
    message_body := i.message_body
    sender_type := i.sender_type
    message_type := i.message_type.getD "general"
    priority := i.priority.getD .normal
    is_read := false
    read_at := none
    attachments := i.attachments
    created_at := now
    updated_at := none }

/-- Partial update of a message; per the spec the read state is mutated
only through the mark-read soft state transition, so it is not part of
the partial field merge. -/
structure MessageUpdate where
  subject : Option String
  message_body : Option String
  message_type : Option String
  priority : Option Priority
  attachments : Option Json

/-- Modelled from the spec: partial field merge for Message, stamping
the modification time. -/
def updateMessageRow (m : Message) (u : MessageUpdate) (now : Nat) : Message :=
  { m with
    subject := u.subject.getD m.subject
    message_body := u.message_body.getD m.message_body
    message_type := u.message_type.getD m.message_type
    priority := u.priority.getD m.priority
    attachments := u.attachments <|> m.attachments
    updated_at := some now }

/-- Modelled from the spec: the mark-message-read soft state transition —
sets is_read and stamps read_at with the operation time, stamping the
modification time as well. -/
def markMessageRead (m : Message) (now : Nat) : Message :=
  { m with is_read := true, read_at := some now, updated_at := some now }

/-- The store operations that can touch an existing message row. -/
inductive MessageOp where
  | update (u : MessageUpdate) : MessageOp
  | markRead : MessageOp

/-- Applies one message operation at its operation time. -/
def applyMessageOp (m : Message) : MessageOp × Nat → Message
  | (.update u, t) => updateMessageRow m u t
  | (.markRead, t) => markMessageRead m t

/-- Runs a sequence of timed message operations. -/
def runMessageOps (m : Message) (ops : List (MessageOp × Nat)) : Message :=
  ops.foldl applyMessageOp m

/-- The read-state invariant of the spec: is_read holds exactly when a
read timestamp is present. -/
def messageReadOk (m : Message) : Bool :=
  m.is_read == m.read_at.isSome

/-- The alert severity enum of models/patient.py: info, warning,
critical. -/
inductive Severity where
  | info : Severity
  | warning : Severity
  | critical : Severity
deriving DecidableEq

/-- A row of the health_alerts table (models/patient.py, class
HealthAlert). Unlike the other six entities this table declares no
updated_at column, so the structure carries none. -/
structure HealthAlert where
  id : Nat
  patient_id : Nat
  alert_type : String
  severity : Severity
  title : String
  message : String
  action_required : Bool
  action_url : Option String
  is_read : Bool
  read_at : Option Nat
  expires_at : Option Nat
  created_at : Nat

/-- Caller-supplied fields of a health alert create request; severity
and action_required optional so the schema defaults (info, false)
apply. -/
structure HealthAlertInput where
  patient_id : Nat
  alert_type : String
  severity : Option Severity
  title : String
  message : String
  action_required : Option Bool
  action_url : Option String
  expires_at : Option Nat

/-- Builds the health alert row an insert persists: is_read false and
read_at absent per the column defaults, created_at stamped. -/
def createHealthAlertRow (i : HealthAlertInput) (id now : Nat) : HealthAlert :=
  { id := id
    patient_id := i.patient_id
    alert_type := i.alert_type
    severity := i.severity.getD .info
    title := i.title
    message := i.message
    action_required := i.action_required.getD false
    action_url := i.action_url
    is_read := false
    read_at := none
    expires_at := i.expires_at
    created_at := now }

/-- Partial update of a health alert; read state is mutated only through
the mark-read transition. -/
structure HealthAlertUpdate where
  severity : Option Severity
  title : Option String
  message : Option String
  action_required : Option Bool
  action_url : Option String
  expires_at : Option Nat

/-- Modelled from the spec: partial field merge for HealthAlert. There
is no updated_at column on this table, so no modification time exists to
stamp. -/
def updateHealthAlertRow (a : HealthAlert) (u : HealthAlertUpdate) : HealthAlert :=
  { a with
    severity := u.severity.getD a.severity
    title := u.title.getD a.title
    message := u.message.getD a.message
    action_required := u.action_required.getD a.action_required
    action_url := u.action_url <|> a.action_url
    expires_at := u.expires_at <|> a.expires_at }

/-- Modelled from the spec: the mark-alert-read soft state transition —
sets is_read and stamps read_at with the operation time; nothing else on
the row changes. -/
def markAlertRead (a : HealthAlert) (now : Nat) : HealthAlert :=
  { a with is_read := true, read_at := some now }

/-- The store operations that can touch an existing health alert row. -/
inductive AlertOp where
  | update (u : HealthAlertUpdate) : AlertOp
  | markRead : AlertOp

/-- Applies one alert operation at its operation time. -/
def applyAlertOp (a : HealthAlert) : AlertOp × Nat → HealthAlert
  | (.update u, _) => updateHealthAlertRow a u
  | (.markRead, t) => markAlertRead a t

/-- Runs a sequence of timed alert operations. -/
def runAlertOps (a : HealthAlert) (ops : List (AlertOp × Nat)) : HealthAlert :=
  ops.foldl applyAlertOp a

/-- The read-state invariant for alerts: is_read holds exactly when a
read timestamp is present. -/
def alertReadOk (a : HealthAlert) : Bool :=
  a.is_read == a.read_at.isSome

/-- Strict order on optional modification stamps: both present and the
first strictly earlier. -/
def stampLt : Option Nat → Option Nat → Prop
  | some a, some b => a < b
  | _, _ => False

/-- A patient update touching nothing. -/
def emptyPatientUpdate : PatientUpdate :=
  ⟨none, none, none, none, none, none, none, none⟩

/-- A provider update touching nothing. -/
def emptyProviderUpdate : ProviderUpdate :=
  ⟨none, none, none, none, none, none, none⟩

/-- An appointment update touching nothing. -/
def emptyApptUpdate : AppointmentUpdate :=
  ⟨none, none, none, none, none, none, none⟩

/-- A lab result update touching nothing. -/
def emptyLabUpdate : LabResultUpdate :=
  ⟨none, none, none, none, none, none, none, none, none, none, none⟩

/-- A medication update touching nothing. -/
def emptyMedUpdate : MedicationUpdate :=
  ⟨none, none, none, none, none, none, none, none, none, none, none, none, none, none⟩

/-- A message update touching nothing. -/
def emptyMsgUpdate : MessageUpdate :=
  ⟨none, none, none, none, none⟩

/-- A concrete provider row with a prior modification stamp. -/
def sampleProvider : Provider :=
  ⟨2, "John", "Smith", some "Dr.", none, none, "b@x.com", none, none, none,
   true, 1, some 4⟩

/-- A concrete scheduled appointment row with a prior modification
stamp. -/
def sampleAppointment : Appointment :=
  ⟨3, 1, 2, 100, 30, none, .scheduled, none, none, none, none, 6, some 4⟩

/-- sampleAppointment after completion. -/
def doneAppointment : Appointment :=
  { sampleAppointment with status := .completed }

/-- A concrete lab result row with a prior modification stamp. -/
def sampleLab : LabResult :=
  ⟨4, 1, "CBC", none, none, none, none, none, none, some .normal, none,
   some 2, some 3, none, none, false, 6, some 4⟩

/-- A concrete medication row with a prior modification stamp. -/
def sampleMedication : Medication :=
  ⟨5, 1, 2, "Aspirin", none, none, none, none, none, none, none, none,
   none, 0, 10, none, none, .active, none, none, 6, some 4⟩

/-- A concrete message row with a prior modification stamp. -/
def sampleMessage : Message :=
  ⟨6, 1, 2, none, "Hello", "Hi", .patient, "general", .normal, false, none,
   none, 6, some 4⟩

/-- An appointment create request leaving status and duration unset, so
the schema defaults apply. -/
def sampleApptInput : AppointmentInput :=
  ⟨1, 2, 100, none, none, none, none, none, none, none⟩

/-- The row createAppointment persists for sampleApptInput with id 3 at
time 6. -/
def sampleApptRow : Appointment :=
  ⟨3, 1, 2, 100, 30, none, .scheduled, none, none, none, none, 6, none⟩

/-- A lab result create request flagged critical with critical status. -/
def criticalLabInput : LabResultInput :=
  ⟨1, "Troponin", none, none, some 5000, none, none, none, some .critical,
   none, some 2, some 3, none, none, some true⟩

/-- The row createLabResult persists for criticalLabInput with id 3 at
time 6. -/
def criticalLabRow : LabResult :=
  ⟨3, 1, "Troponin", none, none, some 5000, none, none, none,
   some .critical, none, some 2, some 3, none, none, true, 6, none⟩

/-- samplePatient carrying a prior modification stamp. -/
def sampleUpdatedPatient : Patient :=
  { samplePatient with updated_at := some 4 }

/-- sampleAppointment after an empty update at time 9. -/
def updatedApptRow : Appointment :=
  { sampleAppointment with updated_at := some 9 }

/-- sampleLab after an empty update at time 9. -/
def updatedLabRow : LabResult :=
  { sampleLab with updated_at := some 9 }

/-- A lab result update setting the critical flag together with a
critical status. -/
def criticalLabUpdate : LabResultUpdate :=
  { emptyLabUpdate with status := some .critical, is_critical := some true }

/-- sampleLab after criticalLabUpdate at time 9. -/
def updatedCriticalLabRow : LabResult :=
  { sampleLab with
    status := some .critical
    is_critical := true
    updated_at := some 9 }

/-- A concrete provider create request. -/
def sampleProviderInput : ProviderInput :=
  ⟨"John", "Smith", none, none, none, "b@x.com", none, none, none, none⟩

/-- A concrete medication create request. -/
def sampleMedInput : MedicationInput :=
  ⟨1, 2, "Aspirin", none, none, none, none, none, none, none, none, none,
   none, 10, none, none, none, none, none⟩

/-- A concrete message create request. -/
def sampleMsgInput : MessageInput :=
  ⟨1, 2, none, "Hello", "Hi", .patient, none, none, none⟩

/-- A concrete health alert row. -/
def sampleAlert : HealthAlert :=
  ⟨7, 1, "medication", .warning, "Refill due", "Refill your prescription",
   false, none, false, none, some 50, 6⟩

/-- An alert update touching nothing. -/
def emptyAlertUpdate : HealthAlertUpdate :=
  ⟨none, none, none, none, none, none⟩

/-- Claim C1: every error handled by the application — a
PatientPortalException, a request-validation failure, or an unexpected
exception — produces a JSON body with exactly the envelope shape
success / error (code, message, details) / meta (timestamp, request_id),
with success equal to false. -/
theorem error_responses_have_uniform_envelope
    (now : Nat) (request_id : String)
    (exc : PatientPortalException) (vexc : RequestValidationError)
    (gexc : PyException) :
    isErrorEnvelope (patient_portal_exception_handler now request_id exc).2 = true ∧
    isErrorEnvelope (validation_exception_handler now request_id vexc).2 = true ∧
    isErrorEnvelope (general_exception_handler now request_id gexc).2 = true := by
  refine ⟨rfl, rfl, rfl⟩

/-- Claim C2: the response to an unexpected exception is independent of
the exception's content — always status 500, code INTERNAL_SERVER_ERROR,
the fixed message, details null — so two runs failing with different
internal exceptions produce the same error body given the same request
metadata. -/
theorem general_handler_leaks_nothing
    (now : Nat) (request_id : String) (e e' : PyException) :
    general_exception_handler now request_id e =
      (500,
       .obj [("success", .bool false),
             ("error", .obj [("code", .str "INTERNAL_SERVER_ERROR"),
                             ("message", .str "An unexpected error occurred"),
                             ("details", .null)]),
             ("meta", .obj [("timestamp", .num now),
                            ("request_id", .str request_id)])]) ∧
    general_exception_handler now request_id e =
      general_exception_handler now request_id e' := by
  exact ⟨rfl, rfl⟩

/-- Claim C3: when the store already holds a patient with the requested
email or medical record number, create fails with ConflictError and the
store is unchanged — the first record is unaffected and no second row is
persisted. -/
theorem duplicate_patient_create_conflicts
    (s : PatientStore) (i : PatientInput) (id now : Nat) (p : Patient)
    (hp : p ∈ s.patients)
    (hdup : p.email = i.email ∨ p.medical_record_number = i.medical_record_number) :
    (createPatientStep s i id now).2 = .error .conflictError ∧
    (createPatientStep s i id now).1 = s := by
  have hconf : patientConflict p i = true := by
    rcases hdup with h | h <;> simp [patientConflict, h]
  have hany : s.patients.any (fun q => patientConflict q i) = true :=
    List.any_eq_true.mpr ⟨p, hp, hconf⟩
  simp [createPatientStep, hany]

/-- Witness for claim C3 at a concrete one-row store. -/
theorem duplicate_patient_create_conflicts_witness :
    (createPatientStep ⟨[samplePatient]⟩ dupEmailInput 2 5).2 = .error .conflictError ∧
    (createPatientStep ⟨[samplePatient]⟩ dupEmailInput 2 5).1 = ⟨[samplePatient]⟩ :=
  duplicate_patient_create_conflicts ⟨[samplePatient]⟩ dupEmailInput 2 5
    samplePatient (by simp) (Or.inl rfl)

/-- Each message operation preserves the read-state invariant. -/
theorem messageReadOk_apply (m : Message) (op : MessageOp × Nat)
    (h : messageReadOk m = true) : messageReadOk (applyMessageOp m op) = true := by
  rcases op with ⟨op, t⟩
  cases op with
  | update u => simpa [applyMessageOp, updateMessageRow, messageReadOk] using h
  | markRead => simp [applyMessageOp, markMessageRead, messageReadOk]

/-- The read-state invariant is preserved by any message operation
sequence. -/
theorem messageReadOk_run (m : Message) (ops : List (MessageOp × Nat))
    (h : messageReadOk m = true) : messageReadOk (runMessageOps m ops) = true := by
  induction ops generalizing m with
  | nil => exact h
  | cons op ops ih => exact ih (applyMessageOp m op) (messageReadOk_apply m op h)

/-- Each alert operation preserves the read-state invariant. -/
theorem alertReadOk_apply (a : HealthAlert) (op : AlertOp × Nat)
    (h : alertReadOk a = true) : alertReadOk (applyAlertOp a op) = true := by
  rcases op with ⟨op, t⟩
  cases op with
  | update u => simpa [applyAlertOp, updateHealthAlertRow, alertReadOk] using h
  | markRead => simp [applyAlertOp, markAlertRead, alertReadOk]

/-- The read-state invariant is preserved by any alert operation
sequence. -/
theorem alertReadOk_run (a : HealthAlert) (ops : List (AlertOp × Nat))
    (h : alertReadOk a = true) : alertReadOk (runAlertOps a ops) = true := by
  induction ops generalizing a with
  | nil => exact h
  | cons op ops ih => exact ih (applyAlertOp a op) (alertReadOk_apply a op h)

/-- Claim C4: for every Message and every HealthAlert, after every
operation — create followed by any sequence of updates and mark-reads —
is_read is true exactly when the read timestamp is non-null. -/
theorem read_flag_iff_read_timestamp
    (mi : MessageInput) (mid mnow : Nat) (mops : List (MessageOp × Nat))
    (ai : HealthAlertInput) (aid anow : Nat) (aops : List (AlertOp × Nat)) :
    messageReadOk (runMessageOps (createMessageRow mi mid mnow) mops) = true ∧
    alertReadOk (runAlertOps (createHealthAlertRow ai aid anow) aops) = true := by
  constructor
  · exact messageReadOk_run _ mops (by simp [createMessageRow, messageReadOk])
  · exact alertReadOk_run _ aops (by simp [createHealthAlertRow, alertReadOk])

/-- Claim C5: the status-transition operation accepts the steps
scheduled to confirmed, scheduled to cancelled and scheduled to
completed, and rejects completed to scheduled with ValidationError,
leaving the appointment unchanged. -/
theorem appointment_status_transition_table
    (a : Appointment) (now : Nat) :
    (a.status = .scheduled →
      ((transitionAppointment a .confirmed now).2 = .ok () ∧
        (transitionAppointment a .confirmed now).1.status = .confirmed) ∧
      ((transitionAppointment a .cancelled now).2 = .ok () ∧
        (transitionAppointment a .cancelled now).1.status = .cancelled) ∧
      ((transitionAppointment a .completed now).2 = .ok () ∧
        (transitionAppointment a .completed now).1.status = .completed)) ∧
    (a.status = .completed →
      (transitionAppointment a .scheduled now).2 = .error .validationError ∧
      (transitionAppointment a .scheduled now).1 = a) := by
  constructor
  · intro h
    refine ⟨⟨?_, ?_⟩, ⟨?_, ?_⟩, ⟨?_, ?_⟩⟩ <;>
      simp [transitionAppointment, allowedTransition, h]
  · intro h
    constructor <;> simp [transitionAppointment, allowedTransition, h]

/-- Witness for claim C5 at concrete scheduled and completed
appointments. -/
theorem appointment_status_transition_table_witness :
    (((transitionAppointment sampleAppointment .confirmed 7).2 = .ok () ∧
        (transitionAppointment sampleAppointment .confirmed 7).1.status = .confirmed) ∧
      ((transitionAppointment sampleAppointment .cancelled 7).2 = .ok () ∧
        (transitionAppointment sampleAppointment .cancelled 7).1.status = .cancelled) ∧
      ((transitionAppointment sampleAppointment .completed 7).2 = .ok () ∧
        (transitionAppointment sampleAppointment .completed 7).1.status = .completed)) ∧
    ((transitionAppointment doneAppointment .scheduled 7).2 = .error .validationError ∧
      (transitionAppointment doneAppointment .scheduled 7).1 = doneAppointment) :=
  ⟨(appointment_status_transition_table sampleAppointment 7).1 rfl,
   (appointment_status_transition_table doneAppointment 7).2 rfl⟩

/-- Claim C6: for every entity with an updated_at column, created_at is
assigned by the store at insert and never changed by an update, while
updated_at is unset immediately after creation and is stamped with the
update time on every successful update — hence strictly increases
whenever the clock has advanced past the previous stamp. -/
theorem timestamps_store_assigned
    (pi : PatientInput) (p : Patient) (pu : PatientUpdate)
    (vi : ProviderInput) (v : Provider) (vu : ProviderUpdate)
    (di : MedicationInput) (d : Medication) (du : MedicationUpdate)
    (gi : MessageInput) (g : Message) (gu : MessageUpdate)
    (ai : AppointmentInput) (a : Appointment) (au : AppointmentUpdate)
    (li : LabResultInput) (l : LabResult) (lu : LabResultUpdate)
    (id now : Nat) :
    ((createPatientRow pi id now).created_at = now ∧
      (createPatientRow pi id now).updated_at = none) ∧
    ((updatePatientRow p pu now).created_at = p.created_at ∧
      (updatePatientRow p pu now).updated_at = some now ∧
      (∀ t0, p.updated_at = some t0 → t0 < now →
        stampLt p.updated_at (updatePatientRow p pu now).updated_at)) ∧
    ((createProviderRow vi id now).created_at = now ∧
      (createProviderRow vi id now).updated_at = none) ∧
    ((updateProviderRow v vu now).created_at = v.created_at ∧
      (updateProviderRow v vu now).updated_at = some now ∧
      (∀ t0, v.updated_at = some t0 → t0 < now →
        stampLt v.updated_at (updateProviderRow v vu now).updated_at)) ∧
    ((createMedicationRow di id now).created_at = now ∧
      (createMedicationRow di id now).updated_at = none) ∧
    ((updateMedicationRow d du now).created_at = d.created_at ∧
      (updateMedicationRow d du now).updated_at = some now ∧
      (∀ t0, d.updated_at = some t0 → t0 < now →
        stampLt d.updated_at (updateMedicationRow d du now).updated_at)) ∧
    ((createMessageRow gi id now).created_at = now ∧
      (createMessageRow gi id now).updated_at = none) ∧
    ((updateMessageRow g gu now).created_at = g.created_at ∧
      (updateMessageRow g gu now).updated_at = some now ∧
      (∀ t0, g.updated_at = some t0 → t0 < now →
        stampLt g.updated_at (updateMessageRow g gu now).updated_at)) ∧
    (∀ r, createAppointment ai id now = .ok r →
      r.created_at = now ∧ r.updated_at = none) ∧
    (∀ r, updateAppointment a au now = .ok r →
      r.created_at = a.created_at ∧ r.updated_at = some now ∧
      (∀ t0, a.updated_at = some t0 → t0 < now →
        stampLt a.updated_at r.updated_at)) ∧
    (∀ r, createLabResult li id now = .ok r →
      r.created_at = now ∧ r.updated_at = none) ∧
    (∀ r, updateLabResult l lu now = .ok r →
      r.created_at = l.created_at ∧ r.updated_at = some now ∧
      (∀ t0, l.updated_at = some t0 → t0 < now →
        stampLt l.updated_at r.updated_at)) := by
  refine ⟨⟨rfl, rfl⟩, ⟨rfl, rfl, ?_⟩, ⟨rfl, rfl⟩, ⟨rfl, rfl, ?_⟩,
    ⟨rfl, rfl⟩, ⟨rfl, rfl, ?_⟩, ⟨rfl, rfl⟩, ⟨rfl, rfl, ?_⟩,
    ?_, ?_, ?_, ?_⟩
  · intro t0 h1 h2; rw [h1]; exact h2
  · intro t0 h1 h2; rw [h1]; exact h2
  · intro t0 h1 h2; rw [h1]; exact h2
  · intro t0 h1 h2; rw [h1]; exact h2
  · intro r h
    simp only [createAppointment] at h
    split at h
    next => exact Except.noConfusion h
    next =>
      injection h with h2
      subst h2
      exact ⟨rfl, rfl⟩
  · intro r h
    simp only [updateAppointment] at h
    split at h
    next => exact Except.noConfusion h
    next =>
      injection h with h2
      subst h2
      exact ⟨rfl, rfl, fun t0 h1 h2 => by rw [h1]; exact h2⟩
  · intro r h
    simp only [createLabResult] at h
    split at h
    next =>
      injection h with h2
      subst h2
      exact ⟨rfl, rfl⟩
    next => exact Except.noConfusion h
  · intro r h
    simp only [updateLabResult] at h
    split at h
    next =>
      injection h with h2
      subst h2
      exact ⟨rfl, rfl, fun t0 h1 h2 => by rw [h1]; exact h2⟩
    next => exact Except.noConfusion h

/-- Witness for claim C6 at concrete rows: creations at times 5 and 6,
updates at time 9 on rows last stamped at time 4. -/
theorem timestamps_store_assigned_witness :
    ((createPatientRow dupEmailInput 2 5).created_at = 5 ∧
      (createPatientRow dupEmailInput 2 5).updated_at = none) ∧
    ((updatePatientRow sampleUpdatedPatient emptyPatientUpdate 9).created_at =
        sampleUpdatedPatient.created_at ∧
      (updatePatientRow sampleUpdatedPatient emptyPatientUpdate 9).updated_at = some 9 ∧
      stampLt sampleUpdatedPatient.updated_at
        (updatePatientRow sampleUpdatedPatient emptyPatientUpdate 9).updated_at) ∧
    ((updateProviderRow sampleProvider emptyProviderUpdate 9).created_at =
        sampleProvider.created_at ∧
      (updateProviderRow sampleProvider emptyProviderUpdate 9).updated_at = some 9 ∧
      stampLt sampleProvider.updated_at
        (updateProviderRow sampleProvider emptyProviderUpdate 9).updated_at) ∧
    ((updateMedicationRow sampleMedication emptyMedUpdate 9).created_at =
        sampleMedication.created_at ∧
      (updateMedicationRow sampleMedication emptyMedUpdate 9).updated_at = some 9 ∧
      stampLt sampleMedication.updated_at
        (updateMedicationRow sampleMedication emptyMedUpdate 9).updated_at) ∧
    ((updateMessageRow sampleMessage emptyMsgUpdate 9).created_at =
        sampleMessage.created_at ∧
      (updateMessageRow sampleMessage emptyMsgUpdate 9).updated_at = some 9 ∧
      stampLt sampleMessage.updated_at
        (updateMessageRow sampleMessage emptyMsgUpdate 9).updated_at) ∧
    (sampleApptRow.created_at = 6 ∧ sampleApptRow.updated_at = none) ∧
    (updatedApptRow.created_at = sampleAppointment.created_at ∧
      updatedApptRow.updated_at = some 9 ∧
      stampLt sampleAppointment.updated_at updatedApptRow.updated_at) ∧
    (criticalLabRow.created_at = 6 ∧ criticalLabRow.updated_at = none) ∧
    (updatedLabRow.created_at = sampleLab.created_at ∧
      updatedLabRow.updated_at = some 9 ∧
      stampLt sampleLab.updated_at updatedLabRow.updated_at) := by
  have hA := timestamps_store_assigned dupEmailInput samplePatient
    emptyPatientUpdate sampleProviderInput sampleProvider emptyProviderUpdate
    sampleMedInput sampleMedication emptyMedUpdate sampleMsgInput
    sampleMessage emptyMsgUpdate sampleApptInput sampleAppointment
    emptyApptUpdate criticalLabInput sampleLab emptyLabUpdate 2 5
  have hB := timestamps_store_assigned dupEmailInput samplePatient
    emptyPatientUpdate sampleProviderInput sampleProvider emptyProviderUpdate
    sampleMedInput sampleMedication emptyMedUpdate sampleMsgInput
    sampleMessage emptyMsgUpdate sampleApptInput sampleAppointment
    emptyApptUpdate criticalLabInput sampleLab emptyLabUpdate 3 6
  have hC := timestamps_store_assigned dupEmailInput sampleUpdatedPatient
    emptyPatientUpdate sampleProviderInput sampleProvider emptyProviderUpdate
    sampleMedInput sampleMedication emptyMedUpdate sampleMsgInput
    sampleMessage emptyMsgUpdate sampleApptInput sampleAppointment
    emptyApptUpdate criticalLabInput sampleLab emptyLabUpdate 0 9
  obtain ⟨hpc, -, -, -, -, -, -, -, -, -, -, -⟩ := hA
  obtain ⟨-, -, -, -, -, -, -, -, hac, -, hlc, -⟩ := hB
  obtain ⟨-, hpu, -, hvu, -, hdu, -, hgu, -, hau, -, hlu⟩ := hC
  refine ⟨hpc, ⟨hpu.1, hpu.2.1, hpu.2.2 4 rfl (by decide)⟩,
    ⟨hvu.1, hvu.2.1, hvu.2.2 4 rfl (by decide)⟩,
    ⟨hdu.1, hdu.2.1, hdu.2.2 4 rfl (by decide)⟩,
    ⟨hgu.1, hgu.2.1, hgu.2.2 4 rfl (by decide)⟩,
    hac sampleApptRow rfl, ?_, hlc criticalLabRow rfl, ?_⟩
  · have h := hau updatedApptRow rfl
    exact ⟨h.1, h.2.1, h.2.2 4 rfl (by decide)⟩
  · have h := hlu updatedLabRow rfl
    exact ⟨h.1, h.2.1, h.2.2 4 rfl (by decide)⟩

/-- A row passing the store's lab validation satisfies the critical-flag
invariant in propositional form. -/
theorem labCriticalOk_spec (r : LabResult) (h : labCriticalOk r = true)
    (hc : r.is_critical = true) :
    r.status = some LabStatus.abnormal ∨ r.status = some LabStatus.critical := by
  simp [labCriticalOk, hc] at h
  rcases h with h | h
  · exact Or.inl h
  · exact Or.inr h

/-- Claim C7: every lab result the store accepts — through create or
update — has status abnormal or critical whenever its is_critical flag
is set. -/
theorem lab_critical_implies_abnormal_status
    (i : LabResultInput) (id now : Nat) (r0 : LabResult) (u : LabResultUpdate) :
    (∀ r, createLabResult i id now = .ok r → r.is_critical = true →
      r.status = some LabStatus.abnormal ∨ r.status = some LabStatus.critical) ∧
    (∀ r, updateLabResult r0 u now = .ok r → r.is_critical = true →
      r.status = some LabStatus.abnormal ∨ r.status = some LabStatus.critical) := by
  constructor
  · intro r h hc
    simp only [createLabResult] at h
    split at h
    next hcond =>
      injection h with h2
      subst h2
      rw [Bool.and_eq_true] at hcond
      exact labCriticalOk_spec _ hcond.1 hc
    next => exact Except.noConfusion h
  · intro r h hc
    simp only [updateLabResult] at h
    split at h
    next hcond =>
      injection h with h2
      subst h2
      rw [Bool.and_eq_true] at hcond
      exact labCriticalOk_spec _ hcond.1 hc
    next => exact Except.noConfusion h

/-- Witness for claim C7: a critical create and a critical update both
pass validation and carry a conforming status. -/
theorem lab_critical_implies_abnormal_status_witness :
    (criticalLabRow.status = some LabStatus.abnormal ∨
      criticalLabRow.status = some LabStatus.critical) ∧
    (updatedCriticalLabRow.status = some LabStatus.abnormal ∨
      updatedCriticalLabRow.status = some LabStatus.critical) :=
  ⟨(lab_critical_implies_abnormal_status criticalLabInput 3 6 sampleLab
      criticalLabUpdate).1 criticalLabRow rfl rfl,
   (lab_critical_implies_abnormal_status criticalLabInput 3 9 sampleLab
      criticalLabUpdate).2 updatedCriticalLabRow rfl rfl⟩

/-- Claim C8: every appointment row the store accepts — through create or
update — has strictly positive duration_minutes, and a status transition
leaves the duration unchanged. -/
theorem appointment_duration_positive
    (i : AppointmentInput) (id now : Nat) (a : Appointment)
    (u : AppointmentUpdate) (target : AppointmentStatus) :
    (∀ r, createAppointment i id now = .ok r → 0 < r.duration_minutes) ∧
    (∀ r, updateAppointment a u now = .ok r → 0 < r.duration_minutes) ∧
    (0 < a.duration_minutes →
      0 < (transitionAppointment a target now).1.duration_minutes) := by
  refine ⟨?_, ?_, ?_⟩
  · intro r h
    simp only [createAppointment] at h
    split at h
    next => exact Except.noConfusion h
    next hcond =>
      injection h with h2
      subst h2
      exact lt_of_not_le hcond
  · intro r h
    simp only [updateAppointment] at h
    split at h
    next => exact Except.noConfusion h
    next hcond =>
      injection h with h2
      subst h2
      exact lt_of_not_le hcond
  · intro h
    simp only [transitionAppointment]
    split <;> exact h

/-- Witness for claim C8 at a concrete create, update and transition. -/
theorem appointment_duration_positive_witness :
    0 < sampleApptRow.duration_minutes ∧
    0 < updatedApptRow.duration_minutes ∧
    0 < (transitionAppointment sampleAppointment .confirmed 7).1.duration_minutes :=
  ⟨(appointment_duration_positive sampleApptInput 3 6 sampleAppointment
      emptyApptUpdate .confirmed).1 sampleApptRow rfl,
   (appointment_duration_positive sampleApptInput 3 9 sampleAppointment
      emptyApptUpdate .confirmed).2.1 updatedApptRow rfl,
   (appointment_duration_positive sampleApptInput 3 7 sampleAppointment
      emptyApptUpdate .confirmed).2.2 (by decide)⟩

/-- A single alert operation cannot change created_at. -/
theorem applyAlertOp_created (a : HealthAlert) (op : AlertOp × Nat) :
    (applyAlertOp a op).created_at = a.created_at := by
  rcases op with ⟨op, t⟩
  cases op <;> rfl

/-- No sequence of alert operations changes created_at. -/
theorem runAlertOps_created (a : HealthAlert) (ops : List (AlertOp × Nat)) :
    (runAlertOps a ops).created_at = a.created_at := by
  induction ops generalizing a with
  | nil => rfl
  | cons op ops ih =>
      exact (ih (applyAlertOp a op)).trans (applyAlertOp_created a op)

/-- Claim C9: a HealthAlert carries no updated_at column, so no mutation
stamps a modification time — mark-read changes only is_read and read_at,
a partial update changes only the fields it sets, and created_at
survives every operation sequence. -/
theorem health_alert_has_no_update_stamp
    (a : HealthAlert) (now : Nat) (u : HealthAlertUpdate)
    (ops : List (AlertOp × Nat)) :
    markAlertRead a now = { a with is_read := true, read_at := some now } ∧
    ((markAlertRead a now).id = a.id ∧
      (markAlertRead a now).patient_id = a.patient_id ∧
      (markAlertRead a now).alert_type = a.alert_type ∧
      (markAlertRead a now).severity = a.severity ∧
      (markAlertRead a now).title = a.title ∧
      (markAlertRead a now).message = a.message ∧
      (markAlertRead a now).action_required = a.action_required ∧
      (markAlertRead a now).action_url = a.action_url ∧
      (markAlertRead a now).expires_at = a.expires_at ∧
      (markAlertRead a now).created_at = a.created_at) ∧
    ((updateHealthAlertRow a u).id = a.id ∧
      (updateHealthAlertRow a u).patient_id = a.patient_id ∧
      (updateHealthAlertRow a u).alert_type = a.alert_type ∧
      (updateHealthAlertRow a u).is_read = a.is_read ∧
      (updateHealthAlertRow a u).read_at = a.read_at ∧
      (updateHealthAlertRow a u).created_at = a.created_at ∧
      (u.severity = none →
        (updateHealthAlertRow a u).severity = a.severity) ∧
      (u.title = none →
        (updateHealthAlertRow a u).title = a.title) ∧
      (u.message = none →
        (updateHealthAlertRow a u).message = a.message) ∧
      (u.action_required = none →
        (updateHealthAlertRow a u).action_required = a.action_required) ∧
      (u.action_url = none →
        (updateHealthAlertRow a u).action_url = a.action_url) ∧
      (u.expires_at = none →
        (updateHealthAlertRow a u).expires_at = a.expires_at)) ∧
    (runAlertOps a ops).created_at = a.created_at := by
  refine ⟨rfl, ⟨rfl, rfl, rfl, rfl, rfl, rfl, rfl, rfl, rfl, rfl⟩,
    ⟨rfl, rfl, rfl, rfl, rfl, rfl, ?_, ?_, ?_, ?_, ?_, ?_⟩,
    runAlertOps_created a ops⟩
  · intro h; simp [updateHealthAlertRow, h]
  · intro h; simp [updateHealthAlertRow, h]
  · intro h; simp [updateHealthAlertRow, h]
  · intro h; simp [updateHealthAlertRow, h]
  · intro h; simp [updateHealthAlertRow, h]
  · intro h; simp [updateHealthAlertRow, h]

/-- Witness for claim C9: an empty update at a concrete alert leaves
every updatable field unchanged. -/
theorem health_alert_has_no_update_stamp_witness :
    (updateHealthAlertRow sampleAlert emptyAlertUpdate).severity = sampleAlert.severity ∧
    (updateHealthAlertRow sampleAlert emptyAlertUpdate).title = sampleAlert.title ∧
    (updateHealthAlertRow sampleAlert emptyAlertUpdate).message = sampleAlert.message ∧
    (updateHealthAlertRow sampleAlert emptyAlertUpdate).action_required = sampleAlert.action_required ∧
    (updateHealthAlertRow sampleAlert emptyAlertUpdate).action_url = sampleAlert.action_url ∧
    (updateHealthAlertRow sampleAlert emptyAlertUpdate).expires_at = sampleAlert.expires_at := by
  obtain ⟨-, -, ⟨-, -, -, -, -, -, f1, f2, f3, f4, f5, f6⟩, -⟩ :=
    health_alert_has_no_update_stamp sampleAlert 9 emptyAlertUpdate []
  exact ⟨f1 rfl, f2 rfl, f3 rfl, f4 rfl, f5 rfl, f6 rfl⟩

/-- Claim C10: an appointment created without an explicit status or
duration is stored with status scheduled and duration_minutes 30, all
other fields taken from the request. -/
theorem appointment_create_defaults
    (i : AppointmentInput) (id now : Nat)
    (hd : i.duration_minutes = none) (hs : i.status = none) :
    createAppointment i id now = .ok
      { id := id
        patient_id := i.patient_id
        provider_id := i.provider_id
        appointment_date := i.appointment_date
        duration_minutes := 30
        appointment_type := i.appointment_type
        status := .scheduled
        location := i.location
        reason := i.reason
        notes := i.notes
        instructions := i.instructions
        created_at := now
        updated_at := none } := by
  simp [createAppointment, hd, hs]

/-- Witness for claim C10 at a concrete input with status and duration
left unset. -/
theorem appointment_create_defaults_witness :
    createAppointment sampleApptInput 3 6 = .ok sampleApptRow :=
  appointment_create_defaults sampleApptInput 3 6 rfl rfl

end PatientPortal
